import Mathlib

/-!
Verification of `add_tellread_index_to_fastq.py`: a shallow embedding of the
script's synchronized merge-rewrite loop (`main`, lines 84-174) together with
its CLI entry point, and theorems about the embedding.

Modelling conventions:
- A FASTQ record, as produced by Biopython's `FastqGeneralIterator`, is the
  triple of its title/header line (without the leading `@`), sequence, and
  quality strings.
- Each input stream is a finite list of already-parsed records; Python's
  three-way `zip` (line 132) is `zip3`, which stops at the shortest list.
- A run's observable outcome is collected in `RunResult`: the list of record
  strings written to each output handle (each `.write` call on lines 157-160
  passes one whole serialized record, so outputs are lists of record
  strings), the error-severity log lines, the process exit status, and
  whether the five `close()` calls on lines 164-168 were executed.
-/

namespace AddTellreadIndex

/-- One FASTQ record as parsed from a stream: header line (after `@`),
sequence, and quality string. -/
structure FastqRecord where
  header : String
  seq : String
  qual : String
deriving DecidableEq, Repr

/-- Global constant `DEFAULT_INDEX_TAG` (line 16 of the script). -/
def DEFAULT_INDEX_TAG : String := "BC:Z"

/-- Python's `str.split(' ')` on a list of characters: splits on every single
space character, keeping empty fields, and yields `[[]]` on empty input, so
the result is never the empty list. Used to embed the header splits on lines
140-142. -/
def splitOnSpace : List Char → List (List Char)
  | [] => [[]]
  | c :: rest =>
    if c = ' ' then [] :: splitOnSpace rest
    else
      match splitOnSpace rest with
      | [] => [[c]]
      | p :: ps => (c :: p) :: ps

/-- Embedding of `header.split(' ')[0]` (lines 140-142): the first field of
the single-space split of the header, i.e. the join key used across the three
streams. -/
def identifier (header : String) : String :=
  String.mk ((splitOnSpace header.toList).headD [])

/-- Embedding of the condition on line 144 of the script, exactly as written
there: `id_R1 != id_R1 or id_R1 != id_I1`. The second argument (`id_R2`) is
accepted but never consulted, mirroring the source. -/
def idsMismatch (id_R1 id_R2 id_I1 : String) : Bool :=
  id_R1 != id_R1 || id_R1 != id_I1

/-- The line-144 condition evaluated on one synchronized triplet
`(R1_record, R2_record, I1_record)`. -/
def tripletMismatch (t : FastqRecord × FastqRecord × FastqRecord) : Bool :=
  idsMismatch (identifier t.1.header) (identifier t.2.1.header)
    (identifier t.2.2.header)

/-- The four `logger.error` lines emitted on lines 145-148 before the
`sys.exit(1)` on line 149. -/
def mismatchLog (t : FastqRecord × FastqRecord × FastqRecord) : List String :=
  ["FastQ records do not match! Exiting...",
   "R1: " ++ identifier t.1.header,
   "R2: " ++ identifier t.2.1.header,
   "I1: " ++ identifier t.2.2.header]

/-- Header augmentation on lines 153-154:
`header + ' ' + index_tag + ':' + seq_I1`. -/
def augmentHeader (header index_tag seq_I1 : String) : String :=
  header ++ " " ++ index_tag ++ ":" ++ seq_I1

/-- The serialization format string of lines 157-160:
`'@{header}\n{seq}\n+\n{qual}\n'` with the three fields substituted. -/
def serializeRecord (header seq qual : String) : String :=
  "@" ++ header ++ "\n" ++ seq ++ "\n+\n" ++ qual ++ "\n"

/-- The record string written to the R1 output handle (lines 153, 157-158)
for one triplet. -/
def emitR1 (index_tag : String) (t : FastqRecord × FastqRecord × FastqRecord) :
    String :=
  serializeRecord (augmentHeader t.1.header index_tag t.2.2.seq) t.1.seq t.1.qual

/-- The record string written to the R2 output handle (lines 154, 159-160)
for one triplet. -/
def emitR2 (index_tag : String) (t : FastqRecord × FastqRecord × FastqRecord) :
    String :=
  serializeRecord (augmentHeader t.2.1.header index_tag t.2.2.seq) t.2.1.seq t.2.1.qual

/-- Python's three-iterator `zip` (lines 132-133): advances all three lists in
lock-step and stops as soon as any one is exhausted. -/
def zip3 {α β γ : Type} : List α → List β → List γ → List (α × β × γ)
  | [], _, _ => []
  | _ :: _, [], _ => []
  | _ :: _, _ :: _, [] => []
  | a :: as, b :: bs, c :: cs => (a, b, c) :: zip3 as bs cs

/-- Observable outcome of one run of the script's `main`:
`out1`/`out2` are the record strings written to the R1/R2 output handles in
order; `errLog` is the list of error-severity log messages; `exitCode` is the
process exit status (0 for a normal return from `main`, 1 for the
`sys.exit(1)` on line 149); `handlesClosed` records whether the five
`close()` calls on lines 164-168 were executed (they are skipped when
`sys.exit(1)` fires inside the loop). -/
structure RunResult where
  out1 : List String
  out2 : List String
  errLog : List String
  exitCode : Nat
  handlesClosed : Bool
deriving DecidableEq, Repr

/-- The loop of lines 132-160 followed by the close calls of lines 164-168,
over the list of synchronized triplets: each iteration checks the line-144
condition, on mismatch logs the three identifiers and exits with status 1
(writing nothing for that or any later triplet, and skipping the closes), and
otherwise writes one augmented record to each output and continues. -/
def processTriplets (index_tag : String) :
    List (FastqRecord × FastqRecord × FastqRecord) → RunResult
  | [] =>
    { out1 := [], out2 := [], errLog := [], exitCode := 0, handlesClosed := true }
  | t :: rest =>
    if tripletMismatch t then
      { out1 := [], out2 := [], errLog := mismatchLog t, exitCode := 1,
        handlesClosed := false }
    else
      let res := processTriplets index_tag rest
      { out1 := emitR1 index_tag t :: res.out1,
        out2 := emitR2 index_tag t :: res.out2,
        errLog := res.errLog, exitCode := res.exitCode,
        handlesClosed := res.handlesClosed }

/-- Index-tag resolution (lines 101-103 together with the argparse default on
line 193): the `-x` argument defaults to the Python value `False`, modelled
as `none`, which `main` replaces with `DEFAULT_INDEX_TAG`. -/
def resolveIndexTag : Option String → String
  | none => DEFAULT_INDEX_TAG
  | some t => t

/-- The script's `main` (lines 84-174) restricted to its observable record
processing: resolve the index tag, zip the three parsed input streams
shortest-first, and run the merge-rewrite loop. -/
def main (r1s r2s i1s : List FastqRecord) (index_tag_arg : Option String) :
    RunResult :=
  processTriplets (resolveIndexTag index_tag_arg) (zip3 r1s r2s i1s)

/-- Exit status of the whole process (lines 177-201 plus `main`). `argsOk`
says whether all required command-line arguments were present and valid; when
they are not, CPython's `ArgumentParser.parse_args` calls
`ArgumentParser.error`, which terminates the process with `sys.exit(2)`,
before `main` ever runs. Otherwise the process status is that of the run. -/
def scriptExitCode (argsOk : Bool) (r1s r2s i1s : List FastqRecord)
    (index_tag_arg : Option String) : Nat :=
  if argsOk then (main r1s r2s i1s index_tag_arg).exitCode else 2

/-- The claim's alternative reading of the join key, stated from the spec's
words for comparison with `identifier`: the token preceding the first
whitespace character of the header (not merely the first space). -/
def identifierFirstWhitespace (header : String) : String :=
  String.mk (header.toList.takeWhile (fun c => !c.isWhitespace))

/-! Helper lemmas about the embedding. -/

theorem splitOnSpace_ne_nil : ∀ l : List Char, splitOnSpace l ≠ []
  | [] => by simp [splitOnSpace]
  | c :: rest => by
    simp only [splitOnSpace]
    split
    · simp
    · split <;> simp

theorem splitOnSpace_headD (l : List Char) :
    (splitOnSpace l).headD [] = l.takeWhile (fun c => c != ' ') := by
  induction l with
  | nil => rfl
  | cons c rest ih =>
    by_cases hc : c = ' '
    · simp [splitOnSpace, hc, List.takeWhile]
    · simp only [splitOnSpace, if_neg hc]
      cases hsp : splitOnSpace rest with
      | nil => exact absurd hsp (splitOnSpace_ne_nil rest)
      | cons p ps =>
        simp only [List.headD_cons, List.takeWhile]
        have : (c != ' ') = true := by simpa using hc
        rw [this]
        simpa [hsp] using ih

theorem identifier_eq_takeWhile (h : String) :
    identifier h = String.mk (h.data.takeWhile (fun c => c != ' ')) :=
  congrArg String.mk (splitOnSpace_headD h.data)

theorem tripletMismatch_eq (t : FastqRecord × FastqRecord × FastqRecord) :
    tripletMismatch t = (identifier t.1.header != identifier t.2.2.header) := by
  simp [tripletMismatch, idsMismatch]

theorem takeWhile_append_cons (p : Char → Bool) (x : Char) :
    ∀ l l' : List Char, (∀ c ∈ l, p c = true) → p x = false →
      (l ++ x :: l').takeWhile p = l
  | [], l', _, hx => by simp [List.takeWhile, hx]
  | c :: l, l', hl, hx => by
    have hc : p c = true := hl c (List.mem_cons_self c l)
    simp only [List.cons_append, List.takeWhile, hc]
    simp [takeWhile_append_cons p x l l' (fun d hd => hl d (List.mem_cons_of_mem c hd)) hx]

theorem zip3_length {α β γ : Type} :
    ∀ (l1 : List α) (l2 : List β) (l3 : List γ),
      (zip3 l1 l2 l3).length = min l1.length (min l2.length l3.length)
  | [], _, _ => by simp [zip3]
  | _ :: _, [], _ => by simp [zip3]
  | _ :: _, _ :: _, [] => by simp [zip3]
  | a :: as, b :: bs, c :: cs => by
    simp only [zip3, List.length_cons, zip3_length as bs cs]
    omega

theorem processTriplets_all_ok (index_tag : String)
    (ts : List (FastqRecord × FastqRecord × FastqRecord))
    (h : ∀ t ∈ ts, tripletMismatch t = false) :
    processTriplets index_tag ts =
      { out1 := ts.map (emitR1 index_tag), out2 := ts.map (emitR2 index_tag),
        errLog := [], exitCode := 0, handlesClosed := true } := by
  induction ts with
  | nil => rfl
  | cons t ts ih =>
    have ht : tripletMismatch t = false := h t (List.mem_cons_self t ts)
    have hts : ∀ u ∈ ts, tripletMismatch u = false :=
      fun u hu => h u (List.mem_cons_of_mem t hu)
    simp [processTriplets, ht, ih hts]

theorem processTriplets_first_bad (index_tag : String)
    (pre : List (FastqRecord × FastqRecord × FastqRecord))
    (t : FastqRecord × FastqRecord × FastqRecord)
    (rest : List (FastqRecord × FastqRecord × FastqRecord))
    (hpre : ∀ u ∈ pre, tripletMismatch u = false)
    (ht : tripletMismatch t = true) :
    processTriplets index_tag (pre ++ t :: rest) =
      { out1 := pre.map (emitR1 index_tag), out2 := pre.map (emitR2 index_tag),
        errLog := mismatchLog t, exitCode := 1, handlesClosed := false } := by
  induction pre with
  | nil => simp [processTriplets, ht]
  | cons u pre ih =>
    have hu : tripletMismatch u = false := hpre u (List.mem_cons_self u pre)
    have hpre' : ∀ v ∈ pre, tripletMismatch v = false :=
      fun v hv => hpre v (List.mem_cons_of_mem u hv)
    simp [processTriplets, hu, ih hpre']

theorem processTriplets_out_lengths (index_tag : String)
    (ts : List (FastqRecord × FastqRecord × FastqRecord)) :
    (processTriplets index_tag ts).out1.length =
      (processTriplets index_tag ts).out2.length := by
  induction ts with
  | nil => rfl
  | cons t ts ih =>
    by_cases ht : tripletMismatch t = true
    · simp [processTriplets, ht]
    · simp only [Bool.not_eq_true] at ht
      simp [processTriplets, ht, ih]

theorem processTriplets_zip3_congr (index_tag : String)
    (r1s r2s : List FastqRecord) {i1s i1s' : List FastqRecord}
    (h : List.Forall₂ (fun a b =>
      identifier a.header = identifier b.header ∧ a.seq = b.seq) i1s i1s') :
    processTriplets index_tag (zip3 r1s r2s i1s) =
      processTriplets index_tag (zip3 r1s r2s i1s') := by
  induction h generalizing r1s r2s with
  | nil => rfl
  | cons hab htail ih =>
    cases r1s with
    | nil => rfl
    | cons r1 r1tl =>
      cases r2s with
      | nil => rfl
      | cons r2 r2tl =>
        obtain ⟨hid, hseq⟩ := hab
        simp only [zip3, processTriplets, tripletMismatch_eq, mismatchLog,
          emitR1, emitR2, augmentHeader, serializeRecord, hid, hseq, ih r1tl r2tl]

/-! Concrete fixtures used by the witness theorems. -/

/-- Three read-1 records, the first from the spec's end-to-end example. -/
def exR1 : List FastqRecord :=
  [⟨"SEQ1", "ACGT", "IIII"⟩, ⟨"SEQ2", "CCCC", "AAAA"⟩, ⟨"SEQ3", "GGCC", "BBBB"⟩]

/-- Three read-2 records matching `exR1`. -/
def exR2 : List FastqRecord :=
  [⟨"SEQ1", "TTTT", "JJJJ"⟩, ⟨"SEQ2", "AAAA", "CCCC"⟩, ⟨"SEQ3", "TTAA", "DDDD"⟩]

/-- Only two index records, so the index stream is the shortest. -/
def exI1 : List FastqRecord :=
  [⟨"SEQ1", "GGGG", "IIII"⟩, ⟨"SEQ2", "TTTT", "HHHH"⟩]

/-- A triplet that passes the line-144 check. -/
def exOkTriplet : FastqRecord × FastqRecord × FastqRecord :=
  (⟨"SEQ1 X", "ACGT", "IIII"⟩, ⟨"SEQ1 Y", "TTTT", "JJJJ"⟩, ⟨"SEQ1 Z", "GGGG", "KKKK"⟩)

/-- A triplet whose read-1 and index identifiers differ, so the line-144
check fires. -/
def exBadTriplet : FastqRecord × FastqRecord × FastqRecord :=
  (⟨"SEQA", "ACGT", "IIII"⟩, ⟨"SEQA", "TTTT", "JJJJ"⟩, ⟨"SEQB", "GGGG", "KKKK"⟩)

/-- An index stream, and a variant of it that differs only in the quality
string and in the header text after the first space. -/
def exIdx : List FastqRecord := [⟨"SEQ1 lane1", "GGGG", "IIII"⟩]

/-- Variant of `exIdx` with a different quality string and a different header
comment after the first space. -/
def exIdxVariant : List FastqRecord := [⟨"SEQ1 lane2", "GGGG", "!!!!"⟩]

/-! Claim theorems. -/

/-- C1: the claim says any pairwise identifier difference among read-1,
read-2 and index — including read-1 vs read-2 — is fatal. The code does not
assert read-1/read-2 equality: line 144 compares `id_R1 != id_R1` (always
false), so a triplet whose read-1 and read-2 identifiers differ while read-1
matches the index is accepted, both records are written, no error is logged,
and the run finishes with exit status 0. -/
theorem c1_r1_r2_mismatch_not_fatal :
    identifier "SEQ1" ≠ identifier "SEQ2" ∧
    main [⟨"SEQ1", "ACGT", "IIII"⟩] [⟨"SEQ2", "TTTT", "JJJJ"⟩]
        [⟨"SEQ1", "GGGG", "IIII"⟩] none =
      { out1 := ["@SEQ1 BC:Z:GGGG\nACGT\n+\nIIII\n"],
        out2 := ["@SEQ2 BC:Z:GGGG\nTTTT\n+\nJJJJ\n"],
        errLog := [], exitCode := 0, handlesClosed := true } := by
  decide

/-- C2: when the identifier check of line 144 fires on a triplet, after any
number of passing triplets, the three identifiers are logged at error
severity, the run exits with status 1, and neither output receives any part
of the offending triplet or of any later triplet — each output holds exactly
the records of the earlier, passing triplets. -/
theorem c2_fail_fast_on_mismatch (index_tag : String)
    (pre : List (FastqRecord × FastqRecord × FastqRecord))
    (t : FastqRecord × FastqRecord × FastqRecord)
    (rest : List (FastqRecord × FastqRecord × FastqRecord))
    (hpre : ∀ u ∈ pre, tripletMismatch u = false)
    (ht : tripletMismatch t = true) :
    (processTriplets index_tag (pre ++ t :: rest)).errLog =
      ["FastQ records do not match! Exiting...",
       "R1: " ++ identifier t.1.header,
       "R2: " ++ identifier t.2.1.header,
       "I1: " ++ identifier t.2.2.header] ∧
    (processTriplets index_tag (pre ++ t :: rest)).exitCode = 1 ∧
    (processTriplets index_tag (pre ++ t :: rest)).out1 =
      pre.map (emitR1 index_tag) ∧
    (processTriplets index_tag (pre ++ t :: rest)).out2 =
      pre.map (emitR2 index_tag) := by
  rw [processTriplets_first_bad index_tag pre t rest hpre ht]
  exact ⟨rfl, rfl, rfl, rfl⟩

theorem c2_witness :
    (processTriplets "BC:Z" ([exOkTriplet] ++ exBadTriplet :: [exOkTriplet])).errLog =
      ["FastQ records do not match! Exiting...",
       "R1: " ++ identifier exBadTriplet.1.header,
       "R2: " ++ identifier exBadTriplet.2.1.header,
       "I1: " ++ identifier exBadTriplet.2.2.header] ∧
    (processTriplets "BC:Z" ([exOkTriplet] ++ exBadTriplet :: [exOkTriplet])).exitCode = 1 ∧
    (processTriplets "BC:Z" ([exOkTriplet] ++ exBadTriplet :: [exOkTriplet])).out1 =
      [exOkTriplet].map (emitR1 "BC:Z") ∧
    (processTriplets "BC:Z" ([exOkTriplet] ++ exBadTriplet :: [exOkTriplet])).out2 =
      [exOkTriplet].map (emitR2 "BC:Z") :=
  c2_fail_fast_on_mismatch "BC:Z" [exOkTriplet] exBadTriplet [exOkTriplet]
    (by decide) (by decide)

/-- C3: on a run in which every triplet passes the identifier check, every
emitted record's header is exactly the original header, one space, the
resolved tag, a colon, and the index record's sequence — with no condition on
the header's existing content, so a pre-existing occurrence of the tag is not
checked for — and an omitted tag flag resolves to the default `BC:Z`. -/
theorem c3_tag_placement (r1s r2s i1s : List FastqRecord)
    (index_tag_arg : Option String)
    (hok : ∀ u ∈ zip3 r1s r2s i1s, tripletMismatch u = false) :
    ((main r1s r2s i1s index_tag_arg).out1 =
      (zip3 r1s r2s i1s).map (fun t =>
        serializeRecord
          (t.1.header ++ " " ++ resolveIndexTag index_tag_arg ++ ":" ++ t.2.2.seq)
          t.1.seq t.1.qual) ∧
     (main r1s r2s i1s index_tag_arg).out2 =
      (zip3 r1s r2s i1s).map (fun t =>
        serializeRecord
          (t.2.1.header ++ " " ++ resolveIndexTag index_tag_arg ++ ":" ++ t.2.2.seq)
          t.2.1.seq t.2.1.qual)) ∧
    resolveIndexTag none = "BC:Z" := by
  rw [main, processTriplets_all_ok _ _ hok]
  exact ⟨⟨rfl, rfl⟩, rfl⟩

theorem c3_witness :
    ((main exR1 exR2 exI1 none).out1 =
      (zip3 exR1 exR2 exI1).map (fun t =>
        serializeRecord
          (t.1.header ++ " " ++ resolveIndexTag none ++ ":" ++ t.2.2.seq)
          t.1.seq t.1.qual) ∧
     (main exR1 exR2 exI1 none).out2 =
      (zip3 exR1 exR2 exI1).map (fun t =>
        serializeRecord
          (t.2.1.header ++ " " ++ resolveIndexTag none ++ ":" ++ t.2.2.seq)
          t.2.1.seq t.2.1.qual)) ∧
    resolveIndexTag none = "BC:Z" :=
  c3_tag_placement exR1 exR2 exI1 none (by decide)

/-- C4: on a run in which every triplet passes the identifier check, the k-th
record written to each output is the canonical 4-line serialization
`@header\nsequence\n+\nquality\n` of the k-th input record of that stream,
with the sequence and quality strings byte-identical to the input record's
and only the header changed (by augmentation). -/
theorem c4_roundtrip (r1s r2s i1s : List FastqRecord)
    (index_tag_arg : Option String) (k : Nat)
    (t : FastqRecord × FastqRecord × FastqRecord)
    (hok : ∀ u ∈ zip3 r1s r2s i1s, tripletMismatch u = false)
    (hk : (zip3 r1s r2s i1s)[k]? = some t) :
    (main r1s r2s i1s index_tag_arg).out1[k]? =
      some ("@" ++ augmentHeader t.1.header (resolveIndexTag index_tag_arg) t.2.2.seq
        ++ "\n" ++ t.1.seq ++ "\n+\n" ++ t.1.qual ++ "\n") ∧
    (main r1s r2s i1s index_tag_arg).out2[k]? =
      some ("@" ++ augmentHeader t.2.1.header (resolveIndexTag index_tag_arg) t.2.2.seq
        ++ "\n" ++ t.2.1.seq ++ "\n+\n" ++ t.2.1.qual ++ "\n") := by
  rw [main, processTriplets_all_ok _ _ hok]
  constructor <;> simp [List.getElem?_map, hk, emitR1, emitR2, serializeRecord]

theorem c4_witness :
    (main exR1 exR2 exI1 none).out1[0]? =
      some ("@" ++ augmentHeader "SEQ1" (resolveIndexTag none) "GGGG"
        ++ "\n" ++ "ACGT" ++ "\n+\n" ++ "IIII" ++ "\n") ∧
    (main exR1 exR2 exI1 none).out2[0]? =
      some ("@" ++ augmentHeader "SEQ1" (resolveIndexTag none) "GGGG"
        ++ "\n" ++ "TTTT" ++ "\n+\n" ++ "JJJJ" ++ "\n") :=
  c4_roundtrip exR1 exR2 exI1 none 0
    (⟨"SEQ1", "ACGT", "IIII"⟩, ⟨"SEQ1", "TTTT", "JJJJ"⟩, ⟨"SEQ1", "GGGG", "IIII"⟩)
    (by decide) (by decide)

/-- C5: on a run in which every synchronized triplet passes the identifier
check, the loop advances the three streams in lock-step and stops at the
shortest: each output receives exactly `min n1 (min n2 n3)` records, the
excess records of the longer streams are dropped, no error is logged, and the
run finishes with exit status 0. -/
theorem c5_shortest_stream (r1s r2s i1s : List FastqRecord)
    (index_tag_arg : Option String)
    (hok : ∀ u ∈ zip3 r1s r2s i1s, tripletMismatch u = false) :
    (main r1s r2s i1s index_tag_arg).out1.length =
      min r1s.length (min r2s.length i1s.length) ∧
    (main r1s r2s i1s index_tag_arg).out2.length =
      min r1s.length (min r2s.length i1s.length) ∧
    (main r1s r2s i1s index_tag_arg).errLog = [] ∧
    (main r1s r2s i1s index_tag_arg).exitCode = 0 := by
  rw [main, processTriplets_all_ok _ _ hok]
  simp [zip3_length]

theorem c5_witness :
    (main exR1 exR2 exI1 none).out1.length =
      min exR1.length (min exR2.length exI1.length) ∧
    (main exR1 exR2 exI1 none).out2.length =
      min exR1.length (min exR2.length exI1.length) ∧
    (main exR1 exR2 exI1 none).errLog = [] ∧
    (main exR1 exR2 exI1 none).exitCode = 0 :=
  c5_shortest_stream exR1 exR2 exI1 none (by decide)

/-- C6 counterexample: the join key is not the token preceding the first
whitespace character. For the header `A<tab>B C` the first whitespace is the
tab, so the claimed identifier would be `A`, but the code splits on the space
character only and uses `A<tab>B`; consequently two headers whose
first-whitespace tokens agree are treated as a fatal mismatch by the run. -/
theorem c6_whitespace_counterexample :
    identifier "A\tB C" = "A\tB" ∧
    identifierFirstWhitespace "A\tB C" = "A" ∧
    identifier "A\tB C" ≠ identifierFirstWhitespace "A\tB C" ∧
    identifierFirstWhitespace "A\tB C" = identifierFirstWhitespace "A\tD C" ∧
    (main [⟨"A\tB C", "ACGT", "IIII"⟩] [⟨"A\tB C", "TTTT", "JJJJ"⟩]
        [⟨"A\tD C", "GGGG", "KKKK"⟩] none).exitCode = 1 ∧
    (main [⟨"A\tB C", "ACGT", "IIII"⟩] [⟨"A\tB C", "TTTT", "JJJJ"⟩]
        [⟨"A\tD C", "GGGG", "KKKK"⟩] none).out1 = [] := by
  decide

/-- C6 (amended): the identifier used for cross-stream matching is the
substring of the header up to, and not including, the first space character;
whitespace other than a space (such as a tab) does not terminate it, and a
header containing no space is its own identifier. -/
theorem c6_identifier_space_extraction (a b : String)
    (ha : ∀ c ∈ a.toList, c ≠ ' ') :
    identifier (a ++ " " ++ b) = a ∧ identifier a = a := by
  have ha' : ∀ c ∈ a.data, (c != ' ') = true := by
    intro c hc
    simpa using ha c hc
  constructor
  · rw [identifier_eq_takeWhile]
    have hdata : (a ++ " " ++ b).data = a.data ++ ' ' :: b.data := by
      simp [String.data_append]
    rw [hdata, takeWhile_append_cons _ _ _ _ ha' (by decide)]
  · rw [identifier_eq_takeWhile, List.takeWhile_eq_self_iff.mpr ha']

theorem c6_witness :
    identifier ("SEQ1" ++ " " ++ "length=150") = "SEQ1" ∧ identifier "SEQ1" = "SEQ1" :=
  c6_identifier_space_extraction "SEQ1" "length=150" (by decide)

/-- C7 counterexample: a usage error does not exit with status 1. When a
required command-line argument is missing, the argparse layer terminates the
process with status 2 before `main` runs. -/
theorem c7_usage_error_exit_two :
    scriptExitCode false [] [] [] none = 2 ∧
    scriptExitCode false [] [] [] none ≠ 1 := by
  decide

/-- C7 (amended): the process exits with status 0 on a successful run and
with status 1 on a fatal identifier-validation error, but missing or invalid
command-line arguments terminate the process with argparse's usage-error
status 2, not 1. -/
theorem c7_exit_codes (r1s r2s i1s : List FastqRecord)
    (index_tag_arg : Option String) (index_tag : String)
    (pre : List (FastqRecord × FastqRecord × FastqRecord))
    (t : FastqRecord × FastqRecord × FastqRecord)
    (rest : List (FastqRecord × FastqRecord × FastqRecord)) :
    ((∀ u ∈ zip3 r1s r2s i1s, tripletMismatch u = false) →
      scriptExitCode true r1s r2s i1s index_tag_arg = 0) ∧
    ((∀ u ∈ pre, tripletMismatch u = false) → tripletMismatch t = true →
      (processTriplets index_tag (pre ++ t :: rest)).exitCode = 1) ∧
    scriptExitCode false r1s r2s i1s index_tag_arg = 2 := by
  refine ⟨fun hok => ?_, fun hpre ht => ?_, rfl⟩
  · simp [scriptExitCode, main, processTriplets_all_ok _ _ hok]
  · rw [processTriplets_first_bad index_tag pre t rest hpre ht]

theorem c7_witness :
    scriptExitCode true exR1 exR2 exI1 none = 0 ∧
    (processTriplets "BC:Z" ([exOkTriplet] ++ exBadTriplet :: [])).exitCode = 1 ∧
    scriptExitCode false exR1 exR2 exI1 none = 2 :=
  ⟨(c7_exit_codes exR1 exR2 exI1 none "BC:Z" [exOkTriplet] exBadTriplet []).1
      (by decide),
   (c7_exit_codes exR1 exR2 exI1 none "BC:Z" [exOkTriplet] exBadTriplet []).2.1
      (by decide) (by decide),
   (c7_exit_codes exR1 exR2 exI1 none "BC:Z" [exOkTriplet] exBadTriplet []).2.2⟩

/-- C8 counterexample: on the fatal identifier-validation path the run exits
with status 1 without executing the five `close()` calls of lines 164-168 —
the claim that handle release is guaranteed on every exit path, including the
error path, fails on the code. -/
theorem c8_error_path_counterexample :
    (main [⟨"SEQA", "ACGT", "IIII"⟩] [⟨"SEQA", "TTTT", "JJJJ"⟩]
        [⟨"SEQB", "GGGG", "KKKK"⟩] none).exitCode = 1 ∧
    (main [⟨"SEQA", "ACGT", "IIII"⟩] [⟨"SEQA", "TTTT", "JJJJ"⟩]
        [⟨"SEQB", "GGGG", "KKKK"⟩] none).handlesClosed = false := by
  decide

/-- C8 (amended): the five file handles are closed only on the normal
termination path; on a fatal identifier-validation error the process exits
with status 1 without executing the close calls. -/
theorem c8_handle_release (index_tag : String)
    (ts pre : List (FastqRecord × FastqRecord × FastqRecord))
    (t : FastqRecord × FastqRecord × FastqRecord)
    (rest : List (FastqRecord × FastqRecord × FastqRecord)) :
    ((∀ u ∈ ts, tripletMismatch u = false) →
      (processTriplets index_tag ts).handlesClosed = true ∧
      (processTriplets index_tag ts).exitCode = 0) ∧
    ((∀ u ∈ pre, tripletMismatch u = false) → tripletMismatch t = true →
      (processTriplets index_tag (pre ++ t :: rest)).handlesClosed = false ∧
      (processTriplets index_tag (pre ++ t :: rest)).exitCode = 1) := by
  refine ⟨fun hok => ?_, fun hpre ht => ?_⟩
  · rw [processTriplets_all_ok _ _ hok]
    exact ⟨rfl, rfl⟩
  · rw [processTriplets_first_bad index_tag pre t rest hpre ht]
    exact ⟨rfl, rfl⟩

theorem c8_witness :
    ((processTriplets "BC:Z" [exOkTriplet]).handlesClosed = true ∧
     (processTriplets "BC:Z" [exOkTriplet]).exitCode = 0) ∧
    ((processTriplets "BC:Z" ([exOkTriplet] ++ exBadTriplet :: [])).handlesClosed = false ∧
     (processTriplets "BC:Z" ([exOkTriplet] ++ exBadTriplet :: [])).exitCode = 1) :=
  ⟨(c8_handle_release "BC:Z" [exOkTriplet] [exOkTriplet] exBadTriplet []).1
      (by decide),
   (c8_handle_release "BC:Z" [exOkTriplet] [exOkTriplet] exBadTriplet []).2
      (by decide) (by decide)⟩

/-- C9: after any number k of loop iterations — including the final state of
a run aborted by the line-144 check, which exits before either write of its
iteration — the two outputs hold the same number of complete records: every
iteration writes exactly one record to each output or to neither. -/
theorem c9_outputs_in_lockstep (index_tag : String)
    (ts : List (FastqRecord × FastqRecord × FastqRecord)) (k : Nat) :
    (processTriplets index_tag (ts.take k)).out1.length =
      (processTriplets index_tag (ts.take k)).out2.length :=
  processTriplets_out_lengths index_tag (ts.take k)

/-- C10: the output streams depend on each index record only through its
identifier and its sequence: replacing the index stream by one whose records
pointwise agree on identifier and sequence — in particular one differing only
in quality strings or in header text after the first space — leaves both
output streams byte-identical. -/
theorem c10_output_independence (r1s r2s : List FastqRecord)
    (index_tag_arg : Option String) (i1s i1s' : List FastqRecord)
    (h : List.Forall₂ (fun a b =>
      identifier a.header = identifier b.header ∧ a.seq = b.seq) i1s i1s') :
    (main r1s r2s i1s index_tag_arg).out1 =
      (main r1s r2s i1s' index_tag_arg).out1 ∧
    (main r1s r2s i1s index_tag_arg).out2 =
      (main r1s r2s i1s' index_tag_arg).out2 := by
  rw [main, main, processTriplets_zip3_congr (resolveIndexTag index_tag_arg) r1s r2s h]
  exact ⟨rfl, rfl⟩

theorem c10_witness :
    (main exR1 exR2 exIdx none).out1 = (main exR1 exR2 exIdxVariant none).out1 ∧
    (main exR1 exR2 exIdx none).out2 = (main exR1 exR2 exIdxVariant none).out2 :=
  c10_output_independence exR1 exR2 none exIdx exIdxVariant
    (List.Forall₂.cons ⟨by decide, by decide⟩ List.Forall₂.nil)

end AddTellreadIndex
